import Mathlib

/-!
Verification development for the Visa MCP server repository
(`src/visa-client.ts` and the unnamed server/adapter source).

The TypeScript sources are shallowly embedded:
* the filesystem (`fs.existsSync` / `fs.readFileSync`) is an explicit
  `FileSystem` argument;
* the network (an axios instance performing HTTP requests) is an explicit
  `Network` argument mapping a request to the upstream outcome;
* each client method returns, besides the decoded data or error, a trace of
  the file-existence checks, file reads and HTTP requests it performed;
* JavaScript truthiness and the `||` defaulting idiom are modelled by the
  `jsTruthy` / `jsOr...` helpers;
* JSON values use a deep inductive `JsonValue`; numbers are modelled by `Int`
  (no property checked here depends on fractional values).
-/

/-- Deep embedding of a JSON value (JavaScript plain data). Numbers are
modelled by `Int`. -/
inductive JsonValue where
  | jnull : JsonValue
  | jbool : Bool → JsonValue
  | jnum : Int → JsonValue
  | jstr : String → JsonValue
  | jarr : List JsonValue → JsonValue
  | jobj : List (String × JsonValue) → JsonValue

/-- JavaScript truthiness of a defined value: `null`, `false`, `0` and the
empty string are falsy; arrays and objects are truthy. -/
def jsTruthy : JsonValue → Bool
  | JsonValue.jnull => false
  | JsonValue.jbool b => b
  | JsonValue.jnum n => n != 0
  | JsonValue.jstr s => s != ""
  | JsonValue.jarr _ => true
  | JsonValue.jobj _ => true

/-- JavaScript `a || b` where `a : T | undefined` (`none` models `undefined`). -/
def jsOrJson (v : Option JsonValue) (d : JsonValue) : JsonValue :=
  match v with
  | none => d
  | some x => if jsTruthy x then x else d

/-- JavaScript `a || b` on an optional string (empty string is falsy). -/
def jsOrStr (v : Option String) (d : String) : String :=
  match v with
  | none => d
  | some s => if s = "" then d else s

/-- JavaScript `a || b` on an optional number (`0` is falsy; `NaN` is not
modelled). -/
def jsOrInt (v : Option Int) (d : Int) : Int :=
  match v with
  | none => d
  | some n => if n = 0 then d else n

/-- Truthiness of a `string | undefined` value. -/
def jsTruthyOptStr (v : Option String) : Bool :=
  match v with
  | none => false
  | some s => s != ""

/-- Underlying string of a `string | undefined` value (empty for `undefined`). -/
def optStrVal (v : Option String) : String :=
  match v with
  | none => ""
  | some s => s

/-- Property access `v.k` on a JSON value: `some` when `v` is an object
carrying the key, `none` (JavaScript `undefined`) otherwise. -/
def jsGet (v : JsonValue) (k : String) : Option JsonValue :=
  match v with
  | JsonValue.jobj fields => List.lookup k fields
  | _ => none

/-- Whether an object value carries a field named `k`. -/
def bodyFieldPresent (v : JsonValue) (k : String) : Bool :=
  (jsGet v k).isSome

mutual

/-- JavaScript `String(v)` coercion as used in template literals. -/
def jsToString : JsonValue → String
  | JsonValue.jnull => "null"
  | JsonValue.jbool b => if b then "true" else "false"
  | JsonValue.jnum n => toString n
  | JsonValue.jstr s => s
  | JsonValue.jarr xs => String.intercalate "," (jsToStringList xs)
  | JsonValue.jobj _ => "[object Object]"

/-- Pointwise `String(·)` coercion of a list of JSON values. -/
def jsToStringList : List JsonValue → List String
  | [] => []
  | v :: vs => jsToString v :: jsToStringList vs

end

/-- Escape of one character inside a JSON string literal. -/
def jsonEscapeChar (c : Char) : String :=
  if c = '"' then "\\\""
  else if c = '\\' then "\\\\"
  else if c = '\n' then "\\n"
  else if c = '\t' then "\\t"
  else if c = '\r' then "\\r"
  else String.singleton c

/-- Escape of a JSON string literal body. -/
def jsonEscape (s : String) : String :=
  String.join (s.toList.map jsonEscapeChar)

mutual

/-- Model of `JSON.stringify(v, null, 2)`; `ind` is the indentation of the
enclosing container. -/
def jsonStringify : String → JsonValue → String
  | _, JsonValue.jnull => "null"
  | _, JsonValue.jbool b => if b then "true" else "false"
  | _, JsonValue.jnum n => toString n
  | _, JsonValue.jstr s => "\"" ++ jsonEscape s ++ "\""
  | _, JsonValue.jarr [] => "[]"
  | ind, JsonValue.jarr (x :: xs) =>
      "[\n" ++ String.intercalate ",\n" (jsonStringifyItems (ind ++ "  ") (x :: xs))
        ++ "\n" ++ ind ++ "]"
  | _, JsonValue.jobj [] => "\x7b\x7d"
  | ind, JsonValue.jobj (f :: fs) =>
      "\x7b\n" ++ String.intercalate ",\n" (jsonStringifyFields (ind ++ "  ") (f :: fs))
        ++ "\n" ++ ind ++ "\x7d"

/-- Rendered array elements, each prefixed by its indentation. -/
def jsonStringifyItems : String → List JsonValue → List String
  | _, [] => []
  | ind, v :: vs => (ind ++ jsonStringify ind v) :: jsonStringifyItems ind vs

/-- Rendered object entries, each prefixed by its indentation. -/
def jsonStringifyFields : String → List (String × JsonValue) → List String
  | _, [] => []
  | ind, (k, v) :: fs =>
      (ind ++ "\"" ++ jsonEscape k ++ "\": " ++ jsonStringify ind v)
        :: jsonStringifyFields ind fs

end

/-- Model of `JSON.stringify(data, null, 2)` at top level. -/
def jsonStringifyTop (v : JsonValue) : String :=
  jsonStringify "" v

/-- Environment tag of `VisaClientConfig.environment`. -/
inductive VisaEnv where
  | sandbox : VisaEnv
  | production : VisaEnv
deriving DecidableEq

/-- Embeds the `VisaClientConfig` interface of `src/visa-client.ts`. -/
structure VisaClientConfig where
  userId : String
  password : String
  certPath : String
  keyPath : String
  caPath : Option String
  environment : VisaEnv

/-- Embeds the `https.Agent` options built in `VisaClient.initialize`:
certificate, key, optional CA bundle and the `rejectUnauthorized` flag. -/
structure HttpsAgent where
  cert : String
  key : String
  ca : Option String
  rejectUnauthorized : Bool

/-- Embeds the axios instance created by `axios.create` in
`VisaClient.initialize`: base URL, TLS agent, basic-auth credentials and the
static JSON headers. -/
structure AxiosInstance where
  baseURL : String
  httpsAgent : HttpsAgent
  authUsername : String
  authPassword : String
  headers : List (String × String)

/-- Mutable state of a `VisaClient` instance: the configuration, the derived
base URL, the optional axios handle and the `initialized` flag. -/
structure VisaClientState where
  config : VisaClientConfig
  baseUrl : String
  client : Option AxiosInstance
  initialized : Bool

/-- Embeds the `VisaClient` constructor: stores the configuration and derives
the base URL from the environment tag; the handle starts absent. -/
def VisaClient.new (config : VisaClientConfig) : VisaClientState :=
  { config := config
    baseUrl :=
      if config.environment = VisaEnv.sandbox then "https://sandbox.api.visa.com"
      else "https://api.visa.com"
    client := none
    initialized := false }

/-- The local filesystem as seen through `fs.existsSync` / `fs.readFileSync`. -/
structure FileSystem where
  pathExists : String → Bool
  read : String → String

/-- An HTTP verb used by the client. -/
inductive HttpMethod where
  | get : HttpMethod
  | post : HttpMethod
deriving DecidableEq

/-- One outbound HTTP request: verb, path relative to the base URL, and the
JSON body (`none` for the body-less GET). -/
structure HttpRequest where
  method : HttpMethod
  path : String
  body : Option JsonValue

/-- An upstream (axios) error: the optional structured
`error.response.data.message` and the generic `error.message`. -/
structure UpstreamError where
  responseDataMessage : Option String
  message : String

/-- An error escaping a client method: either the configuration error thrown
by `getClient`, or an upstream request failure. -/
inductive VisaError where
  | config : String → VisaError
  | upstream : UpstreamError → VisaError

/-- The remote side: how the upstream answers one request issued through a
given axios instance. -/
def Network : Type :=
  AxiosInstance → HttpRequest → Except UpstreamError JsonValue

/-- Trace of filesystem activity performed by one lazy-initialization attempt. -/
structure InitTrace where
  checks : List String
  reads : List String

/-- Message of the error thrown by `VisaClient.getClient` when the handle is
absent. -/
def configErrorMsg : String :=
  "Visa API client not initialized. Please configure your certificates in the certs/ directory."

/-- Embeds `VisaClient.initialize` (`src/visa-client.ts:28-69`): no-op once
initialized; aborts (state unchanged) when the certificate or key file is
missing; otherwise builds the mTLS agent and axios instance and flips the
flag. Also returns the existence checks and file reads performed. -/
def VisaClient.initClient (fs : FileSystem) (s : VisaClientState) :
    VisaClientState × InitTrace :=
  if s.initialized then (s, ⟨[], []⟩)
  else if fs.pathExists s.config.certPath = false then (s, ⟨[s.config.certPath], []⟩)
  else if fs.pathExists s.config.keyPath = false then
    (s, ⟨[s.config.certPath, s.config.keyPath], []⟩)
  else
    let caTruthy := jsTruthyOptStr s.config.caPath
    let caName := optStrVal s.config.caPath
    let caLoaded := caTruthy && fs.pathExists caName
    let httpsAgent : HttpsAgent :=
      { cert := fs.read s.config.certPath
        key := fs.read s.config.keyPath
        ca := if caLoaded then some (fs.read caName) else none
        rejectUnauthorized := true }
    let inst : AxiosInstance :=
      { baseURL := s.baseUrl
        httpsAgent := httpsAgent
        authUsername := s.config.userId
        authPassword := s.config.password
        headers := [("Content-Type", "application/json"), ("Accept", "application/json")] }
    ({ s with client := some inst, initialized := true },
     ⟨[s.config.certPath, s.config.keyPath] ++ (if caTruthy then [caName] else []),
      [s.config.certPath, s.config.keyPath] ++ (if caLoaded then [caName] else [])⟩)

/-- Embeds `VisaClient.getClient` (`src/visa-client.ts:71-79`): runs lazy
initialization, then either returns the handle or throws the configuration
error. -/
def VisaClient.getClient (fs : FileSystem) (s : VisaClientState) :
    VisaClientState × InitTrace × Except String AxiosInstance :=
  let p := VisaClient.initClient fs s
  match p.1.client with
  | none => (p.1, p.2, Except.error configErrorMsg)
  | some c => (p.1, p.2, Except.ok c)

/-- Outcome of one client method call: resulting state, the handle the request
went through (if any), the filesystem checks/reads, the HTTP requests issued,
and the decoded data or error. -/
structure CallResult where
  state : VisaClientState
  usedClient : Option AxiosInstance
  checks : List String
  reads : List String
  requests : List HttpRequest
  result : Except VisaError JsonValue

/-- Shared shape of every `VisaClient` method: obtain the handle via
`getClient` (propagating its configuration error), then issue exactly one
request through it and return the decoded data or the upstream error. -/
def VisaClient.issue (fs : FileSystem) (net : Network) (s : VisaClientState)
    (req : HttpRequest) : CallResult :=
  match VisaClient.getClient fs s with
  | (s', tr, Except.error e) => ⟨s', none, tr.checks, tr.reads, [], Except.error (VisaError.config e)⟩
  | (s', tr, Except.ok c) =>
    match net c req with
    | Except.ok data => ⟨s', some c, tr.checks, tr.reads, [req], Except.ok data⟩
    | Except.error u => ⟨s', some c, tr.checks, tr.reads, [req], Except.error (VisaError.upstream u)⟩

/-- Stop level accepted by `vspsAddStop`. -/
inductive StopLevel where
  | merchant : StopLevel
  | mcc : StopLevel
  | pan : StopLevel
deriving DecidableEq

/-- The wire string of a stop level. -/
def StopLevel.toStr : StopLevel → String
  | StopLevel.merchant => "merchant"
  | StopLevel.mcc => "mcc"
  | StopLevel.pan => "pan"

/-- Request body of `getExchangeRate` (`src/visa-client.ts:97-104`): the
amount is sent as a string via `sourceAmount.toString()`. -/
def getExchangeRateBody (sourceCurrencyCode destinationCurrencyCode : String)
    (sourceAmount : Int) : JsonValue :=
  JsonValue.jobj
    [("sourceCurrencyCode", JsonValue.jstr sourceCurrencyCode),
     ("destinationCurrencyCode", JsonValue.jstr destinationCurrencyCode),
     ("sourceAmount", JsonValue.jstr (toString sourceAmount))]

/-- Request body of `findNearbyAtms` (`src/visa-client.ts:117-144`); `now`
models `new Date().toISOString()`. -/
def findNearbyAtmsBody (now : String) (latitude longitude : Int)
    (distance : Int) (distanceUnit : String) : JsonValue :=
  JsonValue.jobj
    [("wsRequestHeaderV2", JsonValue.jobj
        [("requestTs", JsonValue.jstr now),
         ("applicationId", JsonValue.jstr "VISA_MCP")]),
     ("requestData", JsonValue.jobj
        [("location", JsonValue.jobj
            [("geocodes", JsonValue.jobj
                [("latitude", JsonValue.jnum latitude),
                 ("longitude", JsonValue.jnum longitude)])]),
         ("options", JsonValue.jobj
            [("range", JsonValue.jobj
                [("distance", JsonValue.jnum distance),
                 ("distanceUnit", JsonValue.jstr distanceUnit)]),
             ("findFilters", JsonValue.jarr []),
             ("sort", JsonValue.jobj
                [("primary", JsonValue.jstr "distance"),
                 ("direction", JsonValue.jstr "asc")])])])]

/-- Request body of `vsmAddMerchant` (`src/visa-client.ts:172-176`): the
reason field is always present, defaulted through
`reason || "Subscription cancellation"`. -/
def vsmAddMerchantBody (pan merchantId : String) (reason : Option String) : JsonValue :=
  JsonValue.jobj
    [("pan", JsonValue.jstr pan),
     ("merchantId", JsonValue.jstr merchantId),
     ("reason", JsonValue.jstr (jsOrStr reason "Subscription cancellation"))]

/-- Request body of `vspsSearchEligible` (`src/visa-client.ts:197-203`),
after the `days` parameter default has been resolved. -/
def vspsSearchEligibleBody (pan : String) (days : Int) : JsonValue :=
  JsonValue.jobj
    [("pan", JsonValue.jstr pan),
     ("searchPeriodDays", JsonValue.jnum days)]

/-- Request body of `vspsAddStop` (`src/visa-client.ts:213-218`): starts from
`{pan, level}` and appends `merchantId` (resp. `mcc`) only when the level
matches and the value is truthy. -/
def vspsAddStopBody (pan : String) (level : StopLevel)
    (merchantId mcc : Option String) : JsonValue :=
  JsonValue.jobj
    ([("pan", JsonValue.jstr pan), ("level", JsonValue.jstr level.toStr)] ++
      (if level = StopLevel.merchant && jsTruthyOptStr merchantId then
        [("merchantId", JsonValue.jstr (optStrVal merchantId))]
      else if level = StopLevel.mcc && jsTruthyOptStr mcc then
        [("mcc", JsonValue.jstr (optStrVal mcc))]
      else []))

/-- Request body of `vspsUpdateStop` (`src/visa-client.ts:237`): the object
spread `{ stopId, ...updates }`. -/
def vspsUpdateStopBody (stopId : String) (updates : List (String × JsonValue)) : JsonValue :=
  JsonValue.jobj (("stopId", JsonValue.jstr stopId) :: updates)

/-- Embeds `VisaClient.helloWorld` (`src/visa-client.ts:84-87`): a single GET
of `/vdp/helloworld`. -/
def VisaClient.helloWorld (fs : FileSystem) (net : Network) (s : VisaClientState) : CallResult :=
  VisaClient.issue fs net s
    { method := HttpMethod.get, path := "/vdp/helloworld", body := none }

/-- Embeds `VisaClient.getExchangeRate` (`src/visa-client.ts:92-106`). -/
def VisaClient.getExchangeRate (fs : FileSystem) (net : Network) (s : VisaClientState)
    (sourceCurrencyCode destinationCurrencyCode : String) (sourceAmount : Int) : CallResult :=
  VisaClient.issue fs net s
    { method := HttpMethod.post, path := "/forexrates/v2/foreignexchangerates",
      body := some (getExchangeRateBody sourceCurrencyCode destinationCurrencyCode sourceAmount) }

/-- Embeds `VisaClient.findNearbyAtms` (`src/visa-client.ts:111-146`); the
TypeScript parameter defaults `distance = 5` and `distanceUnit = "km"` apply
when the caller passes `undefined` (`none`). -/
def VisaClient.findNearbyAtms (fs : FileSystem) (net : Network) (now : String)
    (s : VisaClientState) (latitude longitude : Int)
    (distance : Option Int) (distanceUnit : Option String) : CallResult :=
  VisaClient.issue fs net s
    { method := HttpMethod.post, path := "/globalatmlocator/v1/localatms/atmLocator",
      body := some (findNearbyAtmsBody now latitude longitude
        (distance.getD 5) (distanceUnit.getD "km")) }

/-- Embeds `VisaClient.vsmSearch` (`src/visa-client.ts:151-157`). -/
def VisaClient.vsmSearch (fs : FileSystem) (net : Network) (s : VisaClientState)
    (pan : String) : CallResult :=
  VisaClient.issue fs net s
    { method := HttpMethod.post, path := "/vsm/v1/search",
      body := some (JsonValue.jobj [("pan", JsonValue.jstr pan)]) }

/-- Embeds `VisaClient.vsmMerchantDetails` (`src/visa-client.ts:159-165`). -/
def VisaClient.vsmMerchantDetails (fs : FileSystem) (net : Network) (s : VisaClientState)
    (transactionId : String) : CallResult :=
  VisaClient.issue fs net s
    { method := HttpMethod.post, path := "/vsm/v1/merchantdetails",
      body := some (JsonValue.jobj [("transactionId", JsonValue.jstr transactionId)]) }

/-- Embeds `VisaClient.vsmAddMerchant` (`src/visa-client.ts:167-178`). -/
def VisaClient.vsmAddMerchant (fs : FileSystem) (net : Network) (s : VisaClientState)
    (pan merchantId : String) (reason : Option String) : CallResult :=
  VisaClient.issue fs net s
    { method := HttpMethod.post, path := "/vsm/v1/addmerchant",
      body := some (vsmAddMerchantBody pan merchantId reason) }

/-- Embeds `VisaClient.vsmCancel` (`src/visa-client.ts:180-183`). -/
def VisaClient.vsmCancel (fs : FileSystem) (net : Network) (s : VisaClientState)
    (stopId : String) : CallResult :=
  VisaClient.issue fs net s
    { method := HttpMethod.post, path := "/vsm/v1/cancel",
      body := some (JsonValue.jobj [("stopId", JsonValue.jstr stopId)]) }

/-- Embeds `VisaClient.vspsSearchInstructions` (`src/visa-client.ts:188-194`). -/
def VisaClient.vspsSearchInstructions (fs : FileSystem) (net : Network) (s : VisaClientState)
    (pan : String) : CallResult :=
  VisaClient.issue fs net s
    { method := HttpMethod.post, path := "/vsps/v1/stopinstructions/search",
      body := some (JsonValue.jobj [("pan", JsonValue.jstr pan)]) }

/-- Embeds `VisaClient.vspsSearchEligible` (`src/visa-client.ts:196-205`); the
TypeScript default `days = 90` applies when the caller passes `undefined`. -/
def VisaClient.vspsSearchEligible (fs : FileSystem) (net : Network) (s : VisaClientState)
    (pan : String) (days : Option Int) : CallResult :=
  VisaClient.issue fs net s
    { method := HttpMethod.post, path := "/vsps/v1/eligibletransactions/search",
      body := some (vspsSearchEligibleBody pan (days.getD 90)) }

/-- Embeds `VisaClient.vspsAddStop` (`src/visa-client.ts:207-224`). -/
def VisaClient.vspsAddStop (fs : FileSystem) (net : Network) (s : VisaClientState)
    (pan : String) (level : StopLevel) (merchantId mcc : Option String) : CallResult :=
  VisaClient.issue fs net s
    { method := HttpMethod.post, path := "/vsps/v1/stopinstructions/add",
      body := some (vspsAddStopBody pan level merchantId mcc) }

/-- Embeds `VisaClient.vspsCancelStop` (`src/visa-client.ts:226-232`). -/
def VisaClient.vspsCancelStop (fs : FileSystem) (net : Network) (s : VisaClientState)
    (stopId : String) : CallResult :=
  VisaClient.issue fs net s
    { method := HttpMethod.post, path := "/vsps/v1/stopinstructions/cancel",
      body := some (JsonValue.jobj [("stopId", JsonValue.jstr stopId)]) }

/-- Embeds `VisaClient.vspsUpdateStop` (`src/visa-client.ts:234-240`). -/
def VisaClient.vspsUpdateStop (fs : FileSystem) (net : Network) (s : VisaClientState)
    (stopId : String) (updates : List (String × JsonValue)) : CallResult :=
  VisaClient.issue fs net s
    { method := HttpMethod.post, path := "/vsps/v1/stopinstructions/update",
      body := some (vspsUpdateStopBody stopId updates) }

/-- Embeds `VisaClient.vspsExtendStop` (`src/visa-client.ts:242-248`). -/
def VisaClient.vspsExtendStop (fs : FileSystem) (net : Network) (s : VisaClientState)
    (stopId newEndDate : String) : CallResult :=
  VisaClient.issue fs net s
    { method := HttpMethod.post, path := "/vsps/v1/stopinstructions/extend",
      body := some (JsonValue.jobj
        [("stopId", JsonValue.jstr stopId),
         ("newEndDate", JsonValue.jstr newEndDate)]) }

/-- One client operation together with its arguments, enumerating every public
method of `VisaClient`. -/
inductive Op where
  | helloWorld : Op
  | getExchangeRate : String → String → Int → Op
  | findNearbyAtms : Int → Int → Option Int → Option String → Op
  | vsmSearch : String → Op
  | vsmMerchantDetails : String → Op
  | vsmAddMerchant : String → String → Option String → Op
  | vsmCancel : String → Op
  | vspsSearchInstructions : String → Op
  | vspsSearchEligible : String → Option Int → Op
  | vspsAddStop : String → StopLevel → Option String → Option String → Op
  | vspsCancelStop : String → Op
  | vspsUpdateStop : String → List (String × JsonValue) → Op
  | vspsExtendStop : String → String → Op

/-- Dispatches an `Op` to the corresponding `VisaClient` method; `now` models
the ambient clock used by the ATM locator request header. -/
def runOp (op : Op) (fs : FileSystem) (net : Network) (now : String)
    (s : VisaClientState) : CallResult :=
  match op with
  | Op.helloWorld => VisaClient.helloWorld fs net s
  | Op.getExchangeRate src dst amount => VisaClient.getExchangeRate fs net s src dst amount
  | Op.findNearbyAtms lat lng dist unit => VisaClient.findNearbyAtms fs net now s lat lng dist unit
  | Op.vsmSearch pan => VisaClient.vsmSearch fs net s pan
  | Op.vsmMerchantDetails tid => VisaClient.vsmMerchantDetails fs net s tid
  | Op.vsmAddMerchant pan mid reason => VisaClient.vsmAddMerchant fs net s pan mid reason
  | Op.vsmCancel sid => VisaClient.vsmCancel fs net s sid
  | Op.vspsSearchInstructions pan => VisaClient.vspsSearchInstructions fs net s pan
  | Op.vspsSearchEligible pan days => VisaClient.vspsSearchEligible fs net s pan days
  | Op.vspsAddStop pan level mid mcc => VisaClient.vspsAddStop fs net s pan level mid mcc
  | Op.vspsCancelStop sid => VisaClient.vspsCancelStop fs net s sid
  | Op.vspsUpdateStop sid updates => VisaClient.vspsUpdateStop fs net s sid updates
  | Op.vspsExtendStop sid d => VisaClient.vspsExtendStop fs net s sid d

/-- The tool-response envelope: the single text block of
`{ content: [{ type: "text", text }] }`. -/
structure ToolResponse where
  text : String

/-- Embeds `formatResponse` (unnamed server source, lines 34-41): a truthy
error string yields the failure envelope, otherwise the data is
pretty-printed. -/
def formatResponse (data : JsonValue) (error : Option String) : ToolResponse :=
  match error with
  | some e => if e != "" then ⟨"Error: " ++ e⟩ else ⟨jsonStringifyTop data⟩
  | none => ⟨jsonStringifyTop data⟩

/-- The message every tool handler extracts in its catch clause:
`error.response?.data?.message || error.message`. A configuration error
thrown by `getClient` has no `response`, so its own message is used. -/
def jsErrorMessage : VisaError → String
  | VisaError.config m => m
  | VisaError.upstream u => jsOrStr u.responseDataMessage u.message

/-- One tool invocation with its (zod-validated) arguments, enumerating every
tool registered on the MCP server. -/
inductive Tool where
  | hello_world : Tool
  | get_exchange_rate : String → String → Int → Tool
  | find_nearby_atms : Int → Int → Option Int → Tool
  | vsm_search : String → Tool
  | vsm_merchant_details : String → Tool
  | vsm_add_merchant : String → String → Option String → Tool
  | vsm_cancel : String → Tool
  | vsps_search_instructions : String → Tool
  | vsps_search_eligible : String → Option Int → Tool
  | vsps_add_stop : String → StopLevel → Option String → Option String → Tool
  | vsps_cancel_stop : String → Tool
  | vsps_update_stop : String → Option String → Option String → Tool
  | vsps_extend_stop : String → String → Tool

/-- The `updates` record built by the `vsps_update_stop` handler (unnamed
server source, lines 277-279): a field is added only when the argument is
truthy (present and non-empty). -/
def vspsUpdateStopUpdates (merchantId notes : Option String) : List (String × JsonValue) :=
  (match merchantId with
   | some m => if m != "" then [("merchantId", JsonValue.jstr m)] else []
   | none => []) ++
  (match notes with
   | some n => if n != "" then [("notes", JsonValue.jstr n)] else []
   | none => [])

/-- The client call each tool handler delegates to, with the handler-side
argument processing: `distance || 5` for the ATM search and `days || 90` for
the eligible-transaction search, and the truthiness-filtered `updates` record
for `vsps_update_stop`. -/
def toolOp : Tool → Op
  | Tool.hello_world => Op.helloWorld
  | Tool.get_exchange_rate src dst amount => Op.getExchangeRate src dst amount
  | Tool.find_nearby_atms lat lng dist => Op.findNearbyAtms lat lng (some (jsOrInt dist 5)) none
  | Tool.vsm_search pan => Op.vsmSearch pan
  | Tool.vsm_merchant_details tid => Op.vsmMerchantDetails tid
  | Tool.vsm_add_merchant pan mid reason => Op.vsmAddMerchant pan mid reason
  | Tool.vsm_cancel sid => Op.vsmCancel sid
  | Tool.vsps_search_instructions pan => Op.vspsSearchInstructions pan
  | Tool.vsps_search_eligible pan days => Op.vspsSearchEligible pan (some (jsOrInt days 90))
  | Tool.vsps_add_stop pan level mid mcc => Op.vspsAddStop pan level mid mcc
  | Tool.vsps_cancel_stop sid => Op.vspsCancelStop sid
  | Tool.vsps_update_stop sid mid notes =>
      Op.vspsUpdateStop sid (vspsUpdateStopUpdates mid notes)
  | Tool.vsps_extend_stop sid d => Op.vspsExtendStop sid d

/-- The delegated client call performed by a tool handler. -/
def toolCall (t : Tool) (fs : FileSystem) (net : Network) (now : String)
    (s : VisaClientState) : CallResult :=
  runOp (toolOp t) fs net now s

/-- The ATM list extraction `data.responseData?.atmList || []` of the
`find_nearby_atms` handler (unnamed server source, line 103). -/
def extractAtms (data : JsonValue) : List JsonValue :=
  match jsOrJson ((jsGet data "responseData").bind (fun rd => jsGet rd "atmList"))
      (JsonValue.jarr []) with
  | JsonValue.jarr xs => xs
  | _ => []

/-- One line of the ATM summary (unnamed server source, lines 107-109). -/
def atmLine (i : Nat) (atm : JsonValue) : String :=
  toString (i + 1) ++ ". "
    ++ jsToString (jsOrJson (jsGet atm "atmName") (JsonValue.jstr "ATM"))
    ++ " - "
    ++ jsToString (jsOrJson ((jsGet atm "address").bind (fun a => jsGet a "street"))
        (JsonValue.jstr "Unknown"))
    ++ ", "
    ++ jsToString (jsOrJson ((jsGet atm "address").bind (fun a => jsGet a "city"))
        (JsonValue.jstr ""))
    ++ " ("
    ++ jsToString (jsOrJson (jsGet atm "distance") (JsonValue.jstr "?"))
    ++ " km)"

/-- The joined enumeration of a list of ATMs, as built by
`atms.slice(0, 10).map(...).join("\n")` once the slice has been taken. -/
def atmSummary (atms : List JsonValue) : String :=
  String.intercalate "\n" (atms.enum.map (fun p => atmLine p.1 p.2))

/-- Success text of the `find_nearby_atms` handler (unnamed server source,
lines 103-117): the count of all returned ATMs, then the first ten entries,
or the no-ATMs message when the enumeration is empty. -/
def atmResponseText (data : JsonValue) : String :=
  let atms := extractAtms data
  let summary := atmSummary (atms.take 10)
  "Found " ++ toString atms.length ++ " ATMs nearby:\n\n"
    ++ (if summary != "" then summary else "No ATMs found")

/-- Success text of the `get_exchange_rate` handler (unnamed server source,
lines 76-85). -/
def exchangeRateText (src dst : String) (amount : Int) (data : JsonValue) : String :=
  let rate := jsOrJson (jsGet data "conversionRate") (JsonValue.jstr "N/A")
  let converted := jsOrJson (jsGet data "destinationAmount") (JsonValue.jstr "N/A")
  "Exchange Rate: " ++ jsToString rate ++ "\n"
    ++ toString amount ++ " " ++ src ++ " = " ++ jsToString converted ++ " " ++ dst
    ++ "\n\nFull response:\n" ++ jsonStringifyTop data

/-- Envelope a tool returns on a successful client call: `hello_world` and the
subscription/stop tools forward the data through `formatResponse`; the
exchange-rate and ATM tools build their custom texts. -/
def toolSuccessResponse (t : Tool) (data : JsonValue) : ToolResponse :=
  match t with
  | Tool.get_exchange_rate src dst amount => ⟨exchangeRateText src dst amount data⟩
  | Tool.find_nearby_atms _ _ _ => ⟨atmResponseText data⟩
  | _ => formatResponse data none

/-- Embeds one tool handler invocation: the delegated client call in the `try`
block, and the uniform catch clause
`formatResponse(null, error.response?.data?.message || error.message)` shared
verbatim by all thirteen handlers in the server source. -/
def runTool (t : Tool) (fs : FileSystem) (net : Network) (now : String)
    (s : VisaClientState) : VisaClientState × ToolResponse :=
  let r := toolCall t fs net now s
  match r.result with
  | Except.ok data => (r.state, toolSuccessResponse t data)
  | Except.error e => (r.state, formatResponse JsonValue.jnull (some (jsErrorMessage e)))

/-- The request each operation issues, as a function of the operation alone
(plus the ambient clock): used to state that paths and verbs are fixed. -/
def reqOf (now : String) : Op → HttpRequest
  | Op.helloWorld => { method := HttpMethod.get, path := "/vdp/helloworld", body := none }
  | Op.getExchangeRate src dst amount =>
      { method := HttpMethod.post, path := "/forexrates/v2/foreignexchangerates",
        body := some (getExchangeRateBody src dst amount) }
  | Op.findNearbyAtms lat lng dist unit =>
      { method := HttpMethod.post, path := "/globalatmlocator/v1/localatms/atmLocator",
        body := some (findNearbyAtmsBody now lat lng (dist.getD 5) (unit.getD "km")) }
  | Op.vsmSearch pan =>
      { method := HttpMethod.post, path := "/vsm/v1/search",
        body := some (JsonValue.jobj [("pan", JsonValue.jstr pan)]) }
  | Op.vsmMerchantDetails tid =>
      { method := HttpMethod.post, path := "/vsm/v1/merchantdetails",
        body := some (JsonValue.jobj [("transactionId", JsonValue.jstr tid)]) }
  | Op.vsmAddMerchant pan mid reason =>
      { method := HttpMethod.post, path := "/vsm/v1/addmerchant",
        body := some (vsmAddMerchantBody pan mid reason) }
  | Op.vsmCancel sid =>
      { method := HttpMethod.post, path := "/vsm/v1/cancel",
        body := some (JsonValue.jobj [("stopId", JsonValue.jstr sid)]) }
  | Op.vspsSearchInstructions pan =>
      { method := HttpMethod.post, path := "/vsps/v1/stopinstructions/search",
        body := some (JsonValue.jobj [("pan", JsonValue.jstr pan)]) }
  | Op.vspsSearchEligible pan days =>
      { method := HttpMethod.post, path := "/vsps/v1/eligibletransactions/search",
        body := some (vspsSearchEligibleBody pan (days.getD 90)) }
  | Op.vspsAddStop pan level mid mcc =>
      { method := HttpMethod.post, path := "/vsps/v1/stopinstructions/add",
        body := some (vspsAddStopBody pan level mid mcc) }
  | Op.vspsCancelStop sid =>
      { method := HttpMethod.post, path := "/vsps/v1/stopinstructions/cancel",
        body := some (JsonValue.jobj [("stopId", JsonValue.jstr sid)]) }
  | Op.vspsUpdateStop sid updates =>
      { method := HttpMethod.post, path := "/vsps/v1/stopinstructions/update",
        body := some (vspsUpdateStopBody sid updates) }
  | Op.vspsExtendStop sid d =>
      { method := HttpMethod.post, path := "/vsps/v1/stopinstructions/extend",
        body := some (JsonValue.jobj
          [("stopId", JsonValue.jstr sid), ("newEndDate", JsonValue.jstr d)]) }

/-- Specified verb of each operation: GET for the connectivity check, POST for
everything else. -/
def opHttpMethod : Op → HttpMethod
  | Op.helloWorld => HttpMethod.get
  | _ => HttpMethod.post

/-- Specified fixed path of each operation, independent of its arguments. -/
def opFixedPath : Op → String
  | Op.helloWorld => "/vdp/helloworld"
  | Op.getExchangeRate _ _ _ => "/forexrates/v2/foreignexchangerates"
  | Op.findNearbyAtms _ _ _ _ => "/globalatmlocator/v1/localatms/atmLocator"
  | Op.vsmSearch _ => "/vsm/v1/search"
  | Op.vsmMerchantDetails _ => "/vsm/v1/merchantdetails"
  | Op.vsmAddMerchant _ _ _ => "/vsm/v1/addmerchant"
  | Op.vsmCancel _ => "/vsm/v1/cancel"
  | Op.vspsSearchInstructions _ => "/vsps/v1/stopinstructions/search"
  | Op.vspsSearchEligible _ _ => "/vsps/v1/eligibletransactions/search"
  | Op.vspsAddStop _ _ _ _ => "/vsps/v1/stopinstructions/add"
  | Op.vspsCancelStop _ => "/vsps/v1/stopinstructions/cancel"
  | Op.vspsUpdateStop _ _ => "/vsps/v1/stopinstructions/update"
  | Op.vspsExtendStop _ _ => "/vsps/v1/stopinstructions/extend"

/-- Every operation is one `issue` of its fixed request. -/
theorem runOp_eq_issue (op : Op) (fs : FileSystem) (net : Network) (now : String)
    (s : VisaClientState) :
    runOp op fs net now s = VisaClient.issue fs net s (reqOf now op) := by
  cases op <;> rfl

/-- Lazy initialization is a no-op once the flag is set. -/
theorem initClient_of_initialized (fs : FileSystem) (s : VisaClientState)
    (h : s.initialized = true) :
    VisaClient.initClient fs s = (s, ⟨[], []⟩) := by
  simp [VisaClient.initClient, h]

/-- When the certificate or the key file is missing, lazy initialization never
changes the state. -/
theorem initClient_fst_of_missing (fs : FileSystem) (s : VisaClientState)
    (hm : fs.pathExists s.config.certPath = false ∨ fs.pathExists s.config.keyPath = false) :
    (VisaClient.initClient fs s).1 = s := by
  by_cases hi : s.initialized = true
  · rw [initClient_of_initialized fs s hi]
  · rcases hm with hc | hk
    · simp [VisaClient.initClient, hi, hc]
    · by_cases hc2 : fs.pathExists s.config.certPath = false
      · simp [VisaClient.initClient, hi, hc2]
      · simp [VisaClient.initClient, hi, hc2, hk]

/-- With the handle absent and a credential file missing, `getClient` throws
the configuration error and leaves the state as it was. -/
theorem getClient_unready (fs : FileSystem) (s : VisaClientState)
    (hclient : s.client = none)
    (hm : fs.pathExists s.config.certPath = false ∨ fs.pathExists s.config.keyPath = false) :
    VisaClient.getClient fs s =
      (s, (VisaClient.initClient fs s).2, Except.error configErrorMsg) := by
  have h1 := initClient_fst_of_missing fs s hm
  simp [VisaClient.getClient, h1, hclient]

/-- With the handle absent and a credential file missing, `issue` fails with
the configuration error, issues no request, and leaves the state unchanged. -/
theorem issue_unready (fs : FileSystem) (net : Network) (s : VisaClientState)
    (req : HttpRequest) (hclient : s.client = none)
    (hm : fs.pathExists s.config.certPath = false ∨ fs.pathExists s.config.keyPath = false) :
    (VisaClient.issue fs net s req).result = Except.error (VisaError.config configErrorMsg) ∧
    (VisaClient.issue fs net s req).requests = [] ∧
    (VisaClient.issue fs net s req).state = s ∧
    (VisaClient.issue fs net s req).checks = (VisaClient.initClient fs s).2.checks := by
  have hg := getClient_unready fs s hclient hm
  simp [VisaClient.issue, hg]

/-- With the flag set and a handle present, `getClient` returns that handle
without touching the filesystem. -/
theorem getClient_ready (fs : FileSystem) (s : VisaClientState) (c : AxiosInstance)
    (h1 : s.initialized = true) (h2 : s.client = some c) :
    VisaClient.getClient fs s = (s, ⟨[], []⟩, Except.ok c) := by
  simp [VisaClient.getClient, initClient_of_initialized fs s h1, h2]

/-- With the flag set and a handle present, `issue` keeps the state, uses the
stored handle, touches no file and sends exactly the given request. -/
theorem issue_ready (fs : FileSystem) (net : Network) (s : VisaClientState)
    (c : AxiosInstance) (req : HttpRequest)
    (h1 : s.initialized = true) (h2 : s.client = some c) :
    (VisaClient.issue fs net s req).state = s ∧
    (VisaClient.issue fs net s req).usedClient = some c ∧
    (VisaClient.issue fs net s req).checks = [] ∧
    (VisaClient.issue fs net s req).reads = [] ∧
    (VisaClient.issue fs net s req).requests = [req] := by
  have hg := getClient_ready fs s c h1 h2
  unfold VisaClient.issue
  rw [hg]
  cases hn : net c req <;> simp [hn]

/-- An `issue` call sends the given request exactly once when a handle was
obtained and nothing otherwise. -/
theorem issue_requests_shape (fs : FileSystem) (net : Network) (s : VisaClientState)
    (req : HttpRequest) :
    (VisaClient.issue fs net s req).requests =
      (if (VisaClient.issue fs net s req).usedClient.isSome then [req] else []) := by
  unfold VisaClient.issue
  rcases hg : VisaClient.getClient fs s with ⟨s', tr, r⟩
  cases r with
  | error e => simp
  | ok c => cases hn : net c req <;> simp [hn]

/-- Every `issue` ends in the post-initialization state and reports exactly
the initialization file checks, whatever the network does. -/
theorem issue_state_checks (fs : FileSystem) (net : Network) (s : VisaClientState)
    (req : HttpRequest) :
    (VisaClient.issue fs net s req).state = (VisaClient.initClient fs s).1 ∧
    (VisaClient.issue fs net s req).checks = (VisaClient.initClient fs s).2.checks := by
  unfold VisaClient.issue VisaClient.getClient
  cases hc : (VisaClient.initClient fs s).1.client with
  | none => simp [hc]
  | some c => cases hn : net c req <;> simp [hc, hn]

/-- When lazy initialization aborts on a missing file, the certificate path is
among the existence checks performed and no file is read. -/
theorem initClient_aborted_checks (fs : FileSystem) (s : VisaClientState)
    (hi : s.initialized = false)
    (hm : fs.pathExists s.config.certPath = false ∨ fs.pathExists s.config.keyPath = false) :
    s.config.certPath ∈ (VisaClient.initClient fs s).2.checks ∧
    (VisaClient.initClient fs s).2.reads = [] := by
  rcases hm with hc | hk
  · simp [VisaClient.initClient, hi, hc]
  · by_cases hc2 : fs.pathExists s.config.certPath = false
    · simp [VisaClient.initClient, hi, hc2]
    · simp [VisaClient.initClient, hi, hc2, hk]

/-- Concrete configuration used by the closed evaluation theorems. -/
def cfgW : VisaClientConfig :=
  { userId := "demo-user", password := "demo-pass",
    certPath := "certs/cert.pem", keyPath := "certs/key.pem",
    caPath := some "certs/ca.pem", environment := VisaEnv.sandbox }

/-- A filesystem on which every path exists; a file's content is its path. -/
def fsAllW : FileSystem :=
  { pathExists := fun _ => true, read := fun p => p }

/-- A filesystem on which no path exists. -/
def fsNoneW : FileSystem :=
  { pathExists := fun _ => false, read := fun p => p }

/-- A freshly constructed client state. -/
def sNewW : VisaClientState :=
  VisaClient.new cfgW

/-- The axios instance `VisaClient.initialize` builds from `cfgW` on `fsAllW`. -/
def instW : AxiosInstance :=
  { baseURL := "https://sandbox.api.visa.com"
    httpsAgent :=
      { cert := "certs/cert.pem", key := "certs/key.pem",
        ca := some "certs/ca.pem", rejectUnauthorized := true }
    authUsername := "demo-user", authPassword := "demo-pass"
    headers := [("Content-Type", "application/json"), ("Accept", "application/json")] }

/-- A client state whose channel is already established. -/
def sReadyW : VisaClientState :=
  { config := cfgW, baseUrl := "https://sandbox.api.visa.com",
    client := some instW, initialized := true }

/-- A network that answers every request with JSON `null`. -/
def netOkW : Network :=
  fun _ _ => Except.ok JsonValue.jnull

/-- A network that rejects every request with a structured 400 error. -/
def netErrW : Network :=
  fun _ _ => Except.error
    { responseDataMessage := some "Bad request", message := "Request failed with status code 400" }

/-- A network whose answer carries no ATM list. -/
def netEmptyAtmsW : Network :=
  fun _ _ => Except.ok (JsonValue.jobj [])

/-- C1: for every client operation, if the transport channel was never
established (handle absent) and the certificate or key file is missing, the
operation fails with the configuration error naming the missing-credentials
condition and issues no network request. -/
theorem spec_c1_unready_operation_fails_without_network (op : Op) (fs : FileSystem)
    (net : Network) (now : String) (s : VisaClientState)
    (hclient : s.client = none)
    (hm : fs.pathExists s.config.certPath = false ∨ fs.pathExists s.config.keyPath = false) :
    (runOp op fs net now s).result = Except.error (VisaError.config configErrorMsg) ∧
    (runOp op fs net now s).requests = [] := by
  rw [runOp_eq_issue]
  have h := issue_unready fs net s (reqOf now op) hclient hm
  exact ⟨h.1, h.2.1⟩

/-- Witness for C1: the connectivity check on a fresh client over an empty
filesystem fails with the configuration error and zero requests. -/
theorem spec_c1_witness :
    (runOp Op.helloWorld fsNoneW netOkW "2024-01-01T00:00:00.000Z" sNewW).result =
      Except.error (VisaError.config configErrorMsg) ∧
    (runOp Op.helloWorld fsNoneW netOkW "2024-01-01T00:00:00.000Z" sNewW).requests = [] :=
  spec_c1_unready_operation_fails_without_network Op.helloWorld fsNoneW netOkW
    "2024-01-01T00:00:00.000Z" sNewW rfl (Or.inl rfl)

/-- C2: when lazy initialization aborts because the certificate or key file is
absent, the client state is unchanged (the handle and the flag keep their
values), every operation re-runs the same file-existence checks (the
certificate path is re-checked, nothing is cached), and an operation run after
another failed operation behaves exactly like the first. -/
theorem spec_c2_failed_init_not_cached (fs : FileSystem) (net net2 : Network)
    (now now2 : String) (s : VisaClientState) (op op2 : Op)
    (hi : s.initialized = false)
    (hm : fs.pathExists s.config.certPath = false ∨ fs.pathExists s.config.keyPath = false) :
    (VisaClient.initClient fs s).1 = s ∧
    (runOp op fs net now s).state = s ∧
    (runOp op fs net now s).checks = (VisaClient.initClient fs s).2.checks ∧
    s.config.certPath ∈ (runOp op fs net now s).checks ∧
    (VisaClient.initClient fs s).2.reads = [] ∧
    runOp op fs net now ((runOp op2 fs net2 now2 s).state) = runOp op fs net now s := by
  have hfst := initClient_fst_of_missing fs s hm
  have hsc := issue_state_checks fs net s (reqOf now op)
  have hsc2 := issue_state_checks fs net2 s (reqOf now2 op2)
  have hmem := initClient_aborted_checks fs s hi hm
  refine ⟨hfst, ?_, ?_, ?_, hmem.2, ?_⟩
  · rw [runOp_eq_issue, hsc.1, hfst]
  · rw [runOp_eq_issue, hsc.2]
  · rw [runOp_eq_issue, hsc.2]
    exact hmem.1
  · have : (runOp op2 fs net2 now2 s).state = s := by
      rw [runOp_eq_issue, hsc2.1, hfst]
    rw [this]

/-- Witness for C2: on a fresh client over an empty filesystem, the ATM search
leaves the state untouched and re-checks the certificate path, also when run
after a failed exchange-rate call. -/
theorem spec_c2_witness :
    (VisaClient.initClient fsNoneW sNewW).1 = sNewW ∧
    (runOp (Op.vsmSearch "4111111111111111") fsNoneW netOkW "t" sNewW).state = sNewW ∧
    (runOp (Op.vsmSearch "4111111111111111") fsNoneW netOkW "t" sNewW).checks =
      (VisaClient.initClient fsNoneW sNewW).2.checks ∧
    sNewW.config.certPath ∈ (runOp (Op.vsmSearch "4111111111111111") fsNoneW netOkW "t" sNewW).checks ∧
    (VisaClient.initClient fsNoneW sNewW).2.reads = [] ∧
    runOp (Op.vsmSearch "4111111111111111") fsNoneW netOkW "t"
        ((runOp (Op.getExchangeRate "USD" "EUR" 100) fsNoneW netOkW "t" sNewW).state) =
      runOp (Op.vsmSearch "4111111111111111") fsNoneW netOkW "t" sNewW :=
  spec_c2_failed_init_not_cached fsNoneW netOkW netOkW "t" "t" sNewW
    (Op.vsmSearch "4111111111111111") (Op.getExchangeRate "USD" "EUR" 100) rfl (Or.inl rfl)

/-- C3: once initialization has succeeded (flag set, handle present), calling
it again is a no-op, every operation runs through the stored handle, the state
(hence the handle) is unchanged, and no file is checked or read again. -/
theorem spec_c3_single_reused_handle (fs : FileSystem) (net : Network) (now : String)
    (s : VisaClientState) (c : AxiosInstance) (op : Op)
    (h1 : s.initialized = true) (h2 : s.client = some c) :
    VisaClient.initClient fs s = (s, ⟨[], []⟩) ∧
    (runOp op fs net now s).state = s ∧
    (runOp op fs net now s).state.client = some c ∧
    (runOp op fs net now s).usedClient = some c ∧
    (runOp op fs net now s).checks = [] ∧
    (runOp op fs net now s).reads = [] := by
  have hr := issue_ready fs net s c (reqOf now op) h1 h2
  rw [runOp_eq_issue]
  refine ⟨initClient_of_initialized fs s h1, hr.1, ?_, hr.2.1, hr.2.2.1, hr.2.2.2.1⟩
  rw [hr.1, h2]

/-- Witness for C3: on an already-initialized client every conclusion of the
idempotence and handle-reuse theorem holds for the eligible-transaction
search, even over an empty filesystem. -/
theorem spec_c3_witness :
    VisaClient.initClient fsNoneW sReadyW = (sReadyW, ⟨[], []⟩) ∧
    (runOp (Op.vspsSearchEligible "4111111111111111" (some 90)) fsNoneW netOkW "t" sReadyW).state = sReadyW ∧
    (runOp (Op.vspsSearchEligible "4111111111111111" (some 90)) fsNoneW netOkW "t" sReadyW).state.client = some instW ∧
    (runOp (Op.vspsSearchEligible "4111111111111111" (some 90)) fsNoneW netOkW "t" sReadyW).usedClient = some instW ∧
    (runOp (Op.vspsSearchEligible "4111111111111111" (some 90)) fsNoneW netOkW "t" sReadyW).checks = [] ∧
    (runOp (Op.vspsSearchEligible "4111111111111111" (some 90)) fsNoneW netOkW "t" sReadyW).reads = [] :=
  spec_c3_single_reused_handle fsNoneW netOkW "t" sReadyW instW
    (Op.vspsSearchEligible "4111111111111111" (some 90)) rfl rfl

/-- Counterexample to C4: a subscription stop create (`vsmAddMerchant`)
without a reason does NOT send a body with no reason field — the issued
request body carries `reason` with the substituted default
"Subscription cancellation". -/
theorem spec_c4_counterexample :
    (VisaClient.vsmAddMerchant fsAllW netOkW sReadyW "4111111111111111" "MERCH123" none).requests.map
        HttpRequest.body =
      [some (vsmAddMerchantBody "4111111111111111" "MERCH123" none)] ∧
    jsGet (vsmAddMerchantBody "4111111111111111" "MERCH123" none) "reason" =
      some (JsonValue.jstr "Subscription cancellation") ∧
    bodyFieldPresent (vsmAddMerchantBody "4111111111111111" "MERCH123" none) "reason" = true :=
  ⟨rfl, rfl, rfl⟩

/-- C4 as amended: for every create operation, an optional argument the
caller does not supply is omitted from the outgoing request body — a
stop-instruction create at "merchant" level without a merchant identifier, at
"mcc" level without a category code, and at "pan" level (where neither
optional is ever sent) each produce a body that is exactly `{pan, level}` —
with one exception: a subscription stop create without a reason always sends
the reason field, substituted with the default "Subscription cancellation". -/
theorem spec_c4_amended_optional_fields (pan pan2 merchantId2 : String)
    (mcc mid3 mid4 mcc4 : Option String) :
    vspsAddStopBody pan StopLevel.merchant none mcc =
      JsonValue.jobj [("pan", JsonValue.jstr pan), ("level", JsonValue.jstr "merchant")] ∧
    bodyFieldPresent (vspsAddStopBody pan StopLevel.merchant none mcc) "merchantId" = false ∧
    bodyFieldPresent (vspsAddStopBody pan StopLevel.merchant none mcc) "mcc" = false ∧
    vspsAddStopBody pan StopLevel.mcc mid3 none =
      JsonValue.jobj [("pan", JsonValue.jstr pan), ("level", JsonValue.jstr "mcc")] ∧
    bodyFieldPresent (vspsAddStopBody pan StopLevel.mcc mid3 none) "mcc" = false ∧
    bodyFieldPresent (vspsAddStopBody pan StopLevel.mcc mid3 none) "merchantId" = false ∧
    vspsAddStopBody pan StopLevel.pan mid4 mcc4 =
      JsonValue.jobj [("pan", JsonValue.jstr pan), ("level", JsonValue.jstr "pan")] ∧
    bodyFieldPresent (vspsAddStopBody pan StopLevel.pan mid4 mcc4) "merchantId" = false ∧
    bodyFieldPresent (vspsAddStopBody pan StopLevel.pan mid4 mcc4) "mcc" = false ∧
    jsGet (vsmAddMerchantBody pan2 merchantId2 none) "reason" =
      some (JsonValue.jstr "Subscription cancellation") :=
  ⟨rfl, rfl, rfl, rfl, rfl, rfl, rfl, rfl, rfl, rfl⟩

/-- C6: whenever a transport channel is actually built (the handle was absent
and appears after lazy initialization), its agent holds the certificate and
key read from the configured paths for mutual TLS, carries the trust-anchor
file only when a CA path is configured (truthy) and that file exists, and has
strict server-certificate verification (`rejectUnauthorized`) enabled. -/
theorem spec_c6_mutual_tls_agent (fs : FileSystem) (s : VisaClientState)
    (inst : AxiosInstance)
    (hclient : s.client = none)
    (hbuilt : (VisaClient.initClient fs s).1.client = some inst) :
    inst.httpsAgent.rejectUnauthorized = true ∧
    inst.httpsAgent.cert = fs.read s.config.certPath ∧
    inst.httpsAgent.key = fs.read s.config.keyPath ∧
    inst.httpsAgent.ca =
      (if jsTruthyOptStr s.config.caPath && fs.pathExists (optStrVal s.config.caPath)
       then some (fs.read (optStrVal s.config.caPath)) else none) := by
  by_cases hi : s.initialized = true
  · rw [initClient_of_initialized fs s hi] at hbuilt
    simp [hclient] at hbuilt
  · by_cases hc : fs.pathExists s.config.certPath = false
    · rw [initClient_fst_of_missing fs s (Or.inl hc)] at hbuilt
      simp [hclient] at hbuilt
    · by_cases hk : fs.pathExists s.config.keyPath = false
      · rw [initClient_fst_of_missing fs s (Or.inr hk)] at hbuilt
        simp [hclient] at hbuilt
      · simp only [Bool.not_eq_false] at hc hk
        simp only [VisaClient.initClient, hi, hc, hk] at hbuilt
        simp at hbuilt
        subst hbuilt
        refine ⟨rfl, rfl, rfl, ?_⟩
        simp [Bool.and_eq_true]

/-- Witness for C6: the instance built from the demo configuration over the
all-files filesystem satisfies every clause of the agent theorem. -/
theorem spec_c6_witness :
    instW.httpsAgent.rejectUnauthorized = true ∧
    instW.httpsAgent.cert = fsAllW.read sNewW.config.certPath ∧
    instW.httpsAgent.key = fsAllW.read sNewW.config.keyPath ∧
    instW.httpsAgent.ca =
      (if jsTruthyOptStr sNewW.config.caPath && fsAllW.pathExists (optStrVal sNewW.config.caPath)
       then some (fsAllW.read (optStrVal sNewW.config.caPath)) else none) :=
  spec_c6_mutual_tls_agent fsAllW sNewW instW rfl rfl

/-- Once the flag is set, the handle an `issue` call goes through is exactly
the stored one (absent when the handle is absent). -/
theorem issue_used_of_initialized (fs : FileSystem) (net : Network) (s : VisaClientState)
    (req : HttpRequest) (h1 : s.initialized = true) :
    (VisaClient.issue fs net s req).usedClient = s.client := by
  cases hcl : s.client with
  | none =>
      have hg : VisaClient.getClient fs s = (s, ⟨[], []⟩, Except.error configErrorMsg) := by
        simp [VisaClient.getClient, initClient_of_initialized fs s h1, hcl]
      simp [VisaClient.issue, hg]
  | some c =>
      have hg := getClient_ready fs s c h1 hcl
      unfold VisaClient.issue
      rw [hg]
      cases hn : net c req <;> simp [hn]

/-- C7: every operation issues at most one HTTP request; when a handle was
obtained, it issues exactly one, with the GET verb for the connectivity check
and POST for everything else, to its fixed path (independent of arguments,
state and network); and once initialized, a request goes out exactly when the
stored handle exists. -/
theorem spec_c7_single_request_fixed_verb_path (op : Op) (fs : FileSystem)
    (net : Network) (now : String) (s : VisaClientState) :
    (runOp op fs net now s).requests.map (fun r => (r.method, r.path)) =
      (if (runOp op fs net now s).usedClient.isSome then
        [(opHttpMethod op, opFixedPath op)] else []) ∧
    (s.initialized = true → (runOp op fs net now s).usedClient = s.client) := by
  constructor
  · rw [runOp_eq_issue, issue_requests_shape]
    by_cases h : (VisaClient.issue fs net s (reqOf now op)).usedClient.isSome = true
    · simp only [h, if_true, List.map]
      cases op <;> rfl
    · simp only [Bool.not_eq_true] at h
      simp [h]
  · intro h1
    rw [runOp_eq_issue]
    exact issue_used_of_initialized fs net s (reqOf now op) h1

/-- Witness for C7: on a ready client, the connectivity check issues exactly
one GET of `/vdp/helloworld`, through the stored handle. -/
theorem spec_c7_witness :
    (runOp Op.helloWorld fsNoneW netOkW "t" sReadyW).requests.map (fun r => (r.method, r.path)) =
      (if (runOp Op.helloWorld fsNoneW netOkW "t" sReadyW).usedClient.isSome then
        [(opHttpMethod Op.helloWorld, opFixedPath Op.helloWorld)] else []) ∧
    (sReadyW.initialized = true →
      (runOp Op.helloWorld fsNoneW netOkW "t" sReadyW).usedClient = sReadyW.client) :=
  spec_c7_single_request_fixed_verb_path Op.helloWorld fsNoneW netOkW "t" sReadyW

/-- C5: whenever the delegated client call of any tool fails, the handler
returns (never throws) the uniform failure envelope built from
`error.response?.data?.message || error.message`, so a structured upstream
message is propagated verbatim and otherwise the generic error message is
used; the envelope text is "Error: " followed by that message. -/
theorem spec_c5_uniform_failure_envelope (t : Tool) (fs : FileSystem) (net : Network)
    (now : String) (s : VisaClientState) (e : VisaError)
    (herr : (toolCall t fs net now s).result = Except.error e)
    (hne : jsErrorMessage e ≠ "") :
    (runTool t fs net now s).1 = (toolCall t fs net now s).state ∧
    (runTool t fs net now s).2 = formatResponse JsonValue.jnull (some (jsErrorMessage e)) ∧
    (runTool t fs net now s).2.text = "Error: " ++ jsErrorMessage e := by
  have hrun : runTool t fs net now s =
      ((toolCall t fs net now s).state,
        formatResponse JsonValue.jnull (some (jsErrorMessage e))) := by
    unfold runTool
    dsimp only
    rw [herr]
  refine ⟨by rw [hrun], by rw [hrun], ?_⟩
  rw [hrun]
  simp [formatResponse, hne]

/-- Witness for C5: the connectivity tool over a rejecting network returns the
failure envelope carrying the structured upstream message "Bad request". -/
theorem spec_c5_witness :
    (runTool Tool.hello_world fsAllW netErrW "t" sReadyW).1 =
      (toolCall Tool.hello_world fsAllW netErrW "t" sReadyW).state ∧
    (runTool Tool.hello_world fsAllW netErrW "t" sReadyW).2 =
      formatResponse JsonValue.jnull
        (some (jsErrorMessage (VisaError.upstream
          { responseDataMessage := some "Bad request",
            message := "Request failed with status code 400" }))) ∧
    (runTool Tool.hello_world fsAllW netErrW "t" sReadyW).2.text =
      "Error: " ++ jsErrorMessage (VisaError.upstream
        { responseDataMessage := some "Bad request",
          message := "Request failed with status code 400" }) :=
  spec_c5_uniform_failure_envelope Tool.hello_world fsAllW netErrW "t" sReadyW
    (VisaError.upstream
      { responseDataMessage := some "Bad request",
        message := "Request failed with status code 400" })
    rfl (by decide)

/-- The envelope any tool returns on a successful delegated call. -/
theorem runTool_ok (t : Tool) (fs : FileSystem) (net : Network) (now : String)
    (s : VisaClientState) (data : JsonValue)
    (hok : (toolCall t fs net now s).result = Except.ok data) :
    runTool t fs net now s = ((toolCall t fs net now s).state, toolSuccessResponse t data) := by
  unfold runTool
  dsimp only
  rw [hok]

/-- C8: an ATM search whose upstream response resolves to zero ATMs (an empty
list or no list at all) yields a success envelope reporting no ATMs found,
not a failure envelope. -/
theorem spec_c8_zero_atms_reported (fs : FileSystem) (net : Network) (now : String)
    (s : VisaClientState) (lat lng : Int) (dist : Option Int) (data : JsonValue)
    (hok : (toolCall (Tool.find_nearby_atms lat lng dist) fs net now s).result = Except.ok data)
    (hempty : extractAtms data = []) :
    (runTool (Tool.find_nearby_atms lat lng dist) fs net now s).2.text =
      "Found 0 ATMs nearby:\n\nNo ATMs found" ∧
    ("Error: ".data).isPrefixOf
      (runTool (Tool.find_nearby_atms lat lng dist) fs net now s).2.text.data = false := by
  have hrun := runTool_ok (Tool.find_nearby_atms lat lng dist) fs net now s data hok
  have htext : (runTool (Tool.find_nearby_atms lat lng dist) fs net now s).2.text =
      atmResponseText data := by
    rw [hrun]
    rfl
  have hval : atmResponseText data = "Found 0 ATMs nearby:\n\nNo ATMs found" := by
    simp only [atmResponseText, hempty, atmSummary]
    decide
  refine ⟨htext.trans hval, ?_⟩
  rw [htext, hval]
  decide

/-- Witness for C8: an upstream answer with no `responseData` at all makes the
ATM tool report zero ATMs in a success envelope. -/
theorem spec_c8_witness :
    (runTool (Tool.find_nearby_atms 37 (-122) (some 2)) fsAllW netEmptyAtmsW "t" sReadyW).2.text =
      "Found 0 ATMs nearby:\n\nNo ATMs found" ∧
    ("Error: ".data).isPrefixOf
      (runTool (Tool.find_nearby_atms 37 (-122) (some 2)) fsAllW netEmptyAtmsW "t" sReadyW).2.text.data = false :=
  spec_c8_zero_atms_reported fsAllW netEmptyAtmsW "t" sReadyW 37 (-122) (some 2)
    (JsonValue.jobj []) rfl rfl

/-- C9: the ATM tool's text reports the total count of ATMs returned upstream
while enumerating only the first ten of them, so two responses agreeing on
their first ten entries and their total count are displayed identically —
entries past the tenth never appear. -/
theorem spec_c9_count_all_list_first_ten (fs fs2 : FileSystem) (net net2 : Network)
    (now now2 : String) (s s2 : VisaClientState) (lat lng lat2 lng2 : Int)
    (dist dist2 : Option Int) (data data2 : JsonValue)
    (hok : (toolCall (Tool.find_nearby_atms lat lng dist) fs net now s).result = Except.ok data)
    (hok2 : (toolCall (Tool.find_nearby_atms lat2 lng2 dist2) fs2 net2 now2 s2).result = Except.ok data2)
    (hten : (extractAtms data).take 10 = (extractAtms data2).take 10)
    (hlen : (extractAtms data).length = (extractAtms data2).length) :
    (runTool (Tool.find_nearby_atms lat lng dist) fs net now s).2.text =
      "Found " ++ toString (extractAtms data).length ++ " ATMs nearby:\n\n"
        ++ (if atmSummary ((extractAtms data).take 10) != "" then
              atmSummary ((extractAtms data).take 10)
            else "No ATMs found") ∧
    (runTool (Tool.find_nearby_atms lat lng dist) fs net now s).2.text =
      (runTool (Tool.find_nearby_atms lat2 lng2 dist2) fs2 net2 now2 s2).2.text := by
  have htext : (runTool (Tool.find_nearby_atms lat lng dist) fs net now s).2.text =
      atmResponseText data := by
    rw [runTool_ok (Tool.find_nearby_atms lat lng dist) fs net now s data hok]
    rfl
  have htext2 : (runTool (Tool.find_nearby_atms lat2 lng2 dist2) fs2 net2 now2 s2).2.text =
      atmResponseText data2 := by
    rw [runTool_ok (Tool.find_nearby_atms lat2 lng2 dist2) fs2 net2 now2 s2 data2 hok2]
    rfl
  constructor
  · rw [htext]
    rfl
  · rw [htext, htext2]
    unfold atmResponseText
    dsimp only
    rw [hlen, hten]

/-- One concrete ATM entry used by the C9 witness. -/
def atmEntryW (street : String) : JsonValue :=
  JsonValue.jobj
    [("atmName", JsonValue.jstr "Visa ATM"),
     ("address", JsonValue.jobj
        [("street", JsonValue.jstr street), ("city", JsonValue.jstr "Paris")]),
     ("distance", JsonValue.jnum 2)]

/-- An upstream ATM-locator answer carrying eleven ATM entries whose eleventh
street is the given one. -/
def atmDataW (last : String) : JsonValue :=
  JsonValue.jobj
    [("responseData", JsonValue.jobj
        [("atmList", JsonValue.jarr
          (List.replicate 10 (atmEntryW "Rue A") ++ [atmEntryW last]))])]

/-- A network answering with the eleven-ATM payload whose last street is "X". -/
def netAtmsXW : Network :=
  fun _ _ => Except.ok (atmDataW "X")

/-- A network answering with the eleven-ATM payload whose last street is "Y". -/
def netAtmsYW : Network :=
  fun _ _ => Except.ok (atmDataW "Y")

/-- Witness for C9: two eleven-ATM responses differing only in the eleventh
entry produce the same text, which reports the count 11 and lists only the
first ten. -/
theorem spec_c9_witness :
    (runTool (Tool.find_nearby_atms 37 2 (some 2)) fsAllW netAtmsXW "t" sReadyW).2.text =
      "Found " ++ toString (extractAtms (atmDataW "X")).length ++ " ATMs nearby:\n\n"
        ++ (if atmSummary ((extractAtms (atmDataW "X")).take 10) != "" then
              atmSummary ((extractAtms (atmDataW "X")).take 10)
            else "No ATMs found") ∧
    (runTool (Tool.find_nearby_atms 37 2 (some 2)) fsAllW netAtmsXW "t" sReadyW).2.text =
      (runTool (Tool.find_nearby_atms 37 2 (some 2)) fsAllW netAtmsYW "t" sReadyW).2.text :=
  spec_c9_count_all_list_first_ten fsAllW fsAllW netAtmsXW netAtmsYW "t" "t" sReadyW sReadyW
    37 2 37 2 (some 2) (some 2) (atmDataW "X") (atmDataW "Y") rfl rfl rfl rfl

/-- C10: at the tool boundary, falsy optional arguments are treated as absent:
an empty-string merchantId or notes for the stop-instruction update is dropped
(the delegated call is identical to the one without the argument, and the
issued update body carries only the stop identifier), a days value of 0 for
the eligible-transaction search is replaced by the default 90, and a distance
of 0 for the ATM search is replaced by the default 5. -/
theorem spec_c10_falsy_args_treated_absent (sid pan : String) (lat lng : Int)
    (notes mid : Option String) (fs : FileSystem) (net : Network) (now : String)
    (s : VisaClientState) :
    toolOp (Tool.vsps_update_stop sid (some "") notes) =
      toolOp (Tool.vsps_update_stop sid none notes) ∧
    toolOp (Tool.vsps_update_stop sid mid (some "")) =
      toolOp (Tool.vsps_update_stop sid mid none) ∧
    (toolCall (Tool.vsps_update_stop sid (some "") (some "")) fs net now s).requests.map
        HttpRequest.body =
      (if (toolCall (Tool.vsps_update_stop sid (some "") (some "")) fs net now s).usedClient.isSome
       then [some (JsonValue.jobj [("stopId", JsonValue.jstr sid)])] else []) ∧
    toolOp (Tool.vsps_search_eligible pan (some 0)) = Op.vspsSearchEligible pan (some 90) ∧
    toolOp (Tool.find_nearby_atms lat lng (some 0)) = Op.findNearbyAtms lat lng (some 5) none := by
  refine ⟨rfl, rfl, ?_, rfl, rfl⟩
  have hshape := issue_requests_shape fs net s
    (reqOf now (toolOp (Tool.vsps_update_stop sid (some "") (some ""))))
  have hcall : toolCall (Tool.vsps_update_stop sid (some "") (some "")) fs net now s =
      VisaClient.issue fs net s
        (reqOf now (toolOp (Tool.vsps_update_stop sid (some "") (some "")))) :=
    runOp_eq_issue (toolOp (Tool.vsps_update_stop sid (some "") (some ""))) fs net now s
  rw [hcall, hshape]
  by_cases h : (VisaClient.issue fs net s
      (reqOf now (toolOp (Tool.vsps_update_stop sid (some "") (some ""))))).usedClient.isSome = true
  · simp only [h, if_true, List.map]
    rfl
  · simp only [Bool.not_eq_true] at h
    simp [h]
